import Mathlib

/-!
Verification of the StockVision pipeline: a shallow embedding of the
news-trust / sentiment aggregation code (`fake_news_engine.py`,
`news_manager.py`, `main.py`) and of the forecasting core
(`model_engine.py`, class `StockPredictor`), with theorems settling the
specification's claims about them.

Machine floats are modelled by `ℚ`; the external classifier models
(FinBERT, the fake-news BERT) are black boxes, so their output
probabilities are taken as inputs of the embedded functions, exactly at
the point where the repository code consumes them.
-/

/-- Error kinds: the Python built-in exceptions the embedded code can raise,
plus the two error names the specification's error taxonomy prescribes
(`InsufficientDataError`, `ModelNotTrainedError`). -/
inductive PyError where
  | indexError
  | attributeError
  | valueError
  | keyError
  | insufficientDataError
  | modelNotTrainedError
deriving DecidableEq, Repr

/-! ## News trust and sentiment (`fake_news_engine.py`, `news_manager.py`, `main.py`) -/

/-- Embedding of the decision tail of `detect_fake_news` (`fake_news_engine.py`
lines 36-42): given the two softmax class probabilities (index 0 = fake,
index 1 = real), return the label and the winning probability. -/
def detect_fake_news (fakeProb realProb : ℚ) : String × ℚ :=
  if realProb > fakeProb then ("REAL", realProb) else ("FAKE", fakeProb)

/-- Embedding of the trust rule of `process_news_with_finbert`
(`news_manager.py` lines 109-111): `is_trusted = True`, set to `False`
when the validity label is "FAKE" and the confidence exceeds 0.60. -/
def isTrustedOf (validity : String) (confidence : ℚ) : Bool :=
  if validity = "FAKE" ∧ confidence > 3/5 then false else true

/-- Embedding of the sentiment label thresholds of
`process_news_with_finbert` (`news_manager.py` lines 146-148). -/
def sentimentLabel (score : ℚ) : String :=
  if score > 1/20 then "Positive"
  else if score < -(1/20) then "Negative"
  else "Neutral"

/-- The per-article record produced by `process_news_with_finbert`
(`news_manager.py` lines 121-131 and 150-155), restricted to the numeric /
classification fields the claims are about. -/
structure NewsItem where
  is_trusted : Bool
  fake_confidence : ℚ
  sentiment_score : ℚ
  label : String
deriving DecidableEq, Repr

/-- Embedding of the per-article processing of `process_news_with_finbert`:
the fake-news classifier output `(validity, confidence)` (as produced by
`detect_fake_news`) and the FinBERT probabilities `pPos`, `pNeg` yield one
`NewsItem`, with `sentiment_score = pPos - pNeg`
(`news_manager.py` lines 107-111, 141-151). -/
def processArticle (validity : String) (confidence pPos pNeg : ℚ) : NewsItem :=
  { is_trusted := isTrustedOf validity confidence
    fake_confidence := confidence
    sentiment_score := pPos - pNeg
    label := sentimentLabel (pPos - pNeg) }

/-- Embedding of the sentiment value `main.py` lines 112-115 write into the
Feature Frame's `Sentiment` column: `0.0` when the processed article table is
empty, otherwise `sentiment_df['sentiment_score'].mean()` taken over ALL
processed articles. -/
def featureSentiment (items : List NewsItem) : ℚ :=
  if items.isEmpty then 0
  else (items.map NewsItem.sentiment_score).sum / items.length

/-- The ticker-level aggregate the specification prescribes (mean of
`sentiment_score` over trusted articles only, `0.0` when no trusted article
exists), stated from the spec's words for comparison with the code's
`featureSentiment`. -/
def featureSentimentSpec (items : List NewsItem) : ℚ :=
  if (items.filter NewsItem.is_trusted).isEmpty then 0
  else ((items.filter NewsItem.is_trusted).map NewsItem.sentiment_score).sum
        / (items.filter NewsItem.is_trusted).length

/-! ## The forecasting core (`model_engine.py`, class `StockPredictor`) -/

/-- Fitted parameters of a `MinMaxScaler(feature_range=(0,1))` for one
column: the data minimum and maximum seen at fit time. -/
structure ScalerParams where
  dmin : ℚ
  dmax : ℚ
deriving DecidableEq, Repr

/-- Fitting a min-max scaler on one (nonempty) column: record its minimum
and maximum. -/
def fitParams (col : List ℚ) : ScalerParams :=
  { dmin := col.foldl min (col.headD 0), dmax := col.foldl max (col.headD 0) }

/-- `MinMaxScaler.transform` for one value with feature range (0,1):
`(x - dmin) / (dmax - dmin)`, with sklearn's zero-range handling (a constant
column gets scale 1, so the value maps to `x - dmin`). -/
def scaleVal (p : ScalerParams) (x : ℚ) : ℚ :=
  if p.dmax = p.dmin then x - p.dmin else (x - p.dmin) / (p.dmax - p.dmin)

/-- `MinMaxScaler.inverse_transform` for one value, the inverse of
`scaleVal` on the fitted range. -/
def invScaleVal (p : ScalerParams) (y : ℚ) : ℚ :=
  if p.dmax = p.dmin then y + p.dmin else y * (p.dmax - p.dmin) + p.dmin

/-- Column `j` of a row-major table, as `DataFrame.iloc[:, j]` would read it
(rows assumed long enough; short rows default to 0). -/
def colVals (rows : List (List ℚ)) (j : ℕ) : List ℚ :=
  rows.map (fun r => r.getD j 0)

/-- Fitting the all-features `MinMaxScaler` on a table with `ncols`
columns: per-column min/max parameters
(`self.scaler.fit_transform(self.raw_df)`, `model_engine.py` line 32). -/
def fitScaler (rows : List (List ℚ)) (ncols : ℕ) : List ScalerParams :=
  (List.range ncols).map (fun j => fitParams (colVals rows j))

/-- Transforming one row with per-column fitted parameters. -/
def transformRow (ps : List ScalerParams) (row : List ℚ) : List ℚ :=
  row.mapIdx (fun j x => scaleVal (ps.getD j ⟨0, 0⟩) x)

/-- Python's `range(a, b)`: the list `[a, a+1, ..., b-1]` (empty when
`b ≤ a`). -/
def pyRange (a b : ℕ) : List ℕ :=
  List.range' a (b - a)

/-- The trained sequence model, as the rollout consumes it: a black-box
function from an L×F window of scaled rows to one scaled scalar
(`self.model.predict(current_batch)[0, 0]`). -/
def Model : Type :=
  List (List ℚ) → ℚ

/-- State of a `StockPredictor` instance (`model_engine.py` lines 9-28):
the numeric feature table (row-major, with its column names), the lookback,
the two scalers (unfitted on construction, hence `Option` / `[]`), and the
model (`None` on construction). -/
structure Predictor where
  cols : List String
  raw_df : List (List ℚ)
  lookback : ℕ
  scalerParams : List ScalerParams
  targetParams : Option ScalerParams
  model : Option Model

/-- Result of `prepare_data` (`model_engine.py` lines 30-52): the window
list `X`, the label list `y`, the fully scaled feature matrix, the
parameters the two scalers were (re)fitted to, and the target-column
index. -/
structure PrepOut where
  X : List (List (List ℚ))
  y : List ℚ
  scaled : List (List ℚ)
  scalerP : List ScalerParams
  targetP : ScalerParams
  closeIdx : ℕ

/-- Embedding of `StockPredictor.prepare_data` (`model_engine.py`
lines 30-52): fit the all-feature scaler and scale the table (sklearn
raises `ValueError` on an empty table); locate 'Close' (falling back to
column 0) and fit the target scaler on that raw column; then emit, for
every `i` in `range(lookback, len(scaled_data))`, the window
`scaled_data[i-lookback:i]` and the label `scaled_data[i, close_idx]`. -/
def prepare_data (s : Predictor) : Except PyError PrepOut :=
  if s.raw_df.isEmpty then .error .valueError
  else
    let sp := fitScaler s.raw_df s.cols.length
    let scaled := s.raw_df.map (transformRow sp)
    let cIdx := if "Close" ∈ s.cols then s.cols.indexOf "Close" else 0
    let tp := fitParams (colVals s.raw_df cIdx)
    let X := (pyRange s.lookback scaled.length).map
      (fun i => (scaled.drop (i - s.lookback)).take s.lookback)
    let y := (pyRange s.lookback scaled.length).map
      (fun i => (scaled.getD i []).getD cIdx 0)
    .ok ⟨X, y, scaled, sp, tp, cIdx⟩

/-- The shape of `np.array(X)` for a list of rectangular windows: `(0,)`
when the list is empty, else `(n, L, F)`. -/
def npShapeX (X : List (List (List ℚ))) : List ℕ :=
  match X with
  | [] => [0]
  | w :: _ => [X.length, w.length, (w.headD []).length]

/-- Indexing a numpy shape tuple: out-of-range access raises
`IndexError` (as `X.shape[1]` does on a 1-d empty array). -/
def shapeGet (sh : List ℕ) (i : ℕ) : Except PyError ℕ :=
  if h : i < sh.length then .ok (sh.get ⟨i, h⟩) else .error .indexError

/-- Embedding of `StockPredictor.train` (`model_engine.py` lines 66-70):
run `prepare_data`, read `X.shape[1]` and `X.shape[2]` to build the model,
then fit. The model-fitting procedure itself (Keras) is a black-box
parameter `fitModel`; on success the predictor holds the freshly fitted
scaler parameters and the trained model. -/
def train (fitModel : List (List (List ℚ)) → List ℚ → Model) (s : Predictor) :
    Except PyError Predictor := do
  let p ← prepare_data s
  let sh := npShapeX p.X
  let _ ← shapeGet sh 1
  let _ ← shapeGet sh 2
  .ok { s with scalerParams := p.scalerP, targetParams := some p.targetP,
               model := some (fitModel p.X p.y) }

/-- One window update of the rollout (`model_engine.py` lines 89-94): copy
the last row, overwrite its target column with the new scaled prediction,
drop the oldest row and append the synthetic row. -/
def nextBatch (cIdx : ℕ) (predScaled : ℚ) (b : List (List ℚ)) : List (List ℚ) :=
  b.drop 1 ++ [(b.getLast?.getD []).set cIdx predScaled]

/-- One full rollout step on the window: predict on the current window and
advance it. -/
def stepBatch (m : Model) (cIdx : ℕ) (b : List (List ℚ)) : List (List ℚ) :=
  nextBatch cIdx (m b) b

/-- The window in force at step `k` of the rollout (step 0 uses the seed
window). -/
def batchAt (m : Model) (cIdx : ℕ) (b : List (List ℚ)) : ℕ → List (List ℚ)
  | 0 => b
  | k+1 => batchAt m cIdx (stepBatch m cIdx b) k

/-- The sequence of scaled model outputs of the rollout, in step order. -/
def rolloutScaled (m : Model) (cIdx : ℕ) (b : List (List ℚ)) : ℕ → List ℚ
  | 0 => []
  | k+1 => m b :: rolloutScaled m cIdx (stepBatch m cIdx b) k

/-- The prediction loop of `predict_future` (`model_engine.py`
lines 81-94): per step, call `self.model.predict` (an `AttributeError`
when the model is still `None`), inverse-transform the scaled prediction
with the target scaler, append it, and advance the window. -/
def rollout (mo : Option Model) (tp : ScalerParams) (cIdx : ℕ) :
    List (List ℚ) → ℕ → Except PyError (List ℚ)
  | _, 0 => .ok []
  | b, k+1 =>
    match mo with
    | none => .error .attributeError
    | some m =>
      match rollout mo tp cIdx (stepBatch m cIdx b) k with
      | .ok rest => .ok (invScaleVal tp (m b) :: rest)
      | .error e => .error e

/-- Embedding of `StockPredictor.predict_future` (`model_engine.py`
lines 72-96): rerun `prepare_data` (refitting both scalers on the current
table), seed the window with the last `lookback` scaled rows (the
`reshape` raises `ValueError` when fewer rows exist), look up the 'Close'
column (`KeyError` when absent), and run the rollout for `days` steps. -/
def predict_future (s : Predictor) (days : ℕ) : Except PyError (List ℚ) := do
  let p ← prepare_data s
  if p.scaled.length < s.lookback then
    .error .valueError
  else if "Close" ∈ s.cols then
    rollout s.model p.targetP (s.cols.indexOf "Close")
      (p.scaled.drop (p.scaled.length - s.lookback)) days
  else
    .error .keyError

/-- The scaled feature matrix `prepare_data` produces for a predictor
(`scaled_data` in the source). -/
def scaledMatrix (s : Predictor) : List (List ℚ) :=
  s.raw_df.map (transformRow (fitScaler s.raw_df s.cols.length))

/-- The target-column index `prepare_data` locates ('Close', falling back
to column 0). -/
def closeIdxOf (s : Predictor) : ℕ :=
  if "Close" ∈ s.cols then s.cols.indexOf "Close" else 0

/-- The full successful result of `prepare_data` on a nonempty table, in
closed form. -/
def prepOutOf (s : Predictor) : PrepOut :=
  { X := (pyRange s.lookback (scaledMatrix s).length).map
      (fun i => ((scaledMatrix s).drop (i - s.lookback)).take s.lookback)
    y := (pyRange s.lookback (scaledMatrix s).length).map
      (fun i => (((scaledMatrix s).getD i []).getD (closeIdxOf s) 0))
    scaled := scaledMatrix s
    scalerP := fitScaler s.raw_df s.cols.length
    targetP := fitParams (colVals s.raw_df (closeIdxOf s))
    closeIdx := closeIdxOf s }

/-- A concrete black-box model fitter (constant zero model), used to
instantiate `train` in concrete evaluations. -/
def fitModelZero : List (List (List ℚ)) → List ℚ → Model :=
  fun _ _ => fun _ => 0

/-- A concrete untrained predictor with 2 rows and the default lookback 60:
fewer rows than the lookback. -/
def predictorSmall : Predictor :=
  { cols := ["Close"], raw_df := [[1], [2]], lookback := 60,
    scalerParams := [], targetParams := none, model := none }

/-- A concrete untrained predictor whose table passes data preparation
(2 rows, lookback 1). -/
def predictorUntrained : Predictor :=
  { cols := ["Close"], raw_df := [[1], [2]], lookback := 1,
    scalerParams := [], targetParams := none, model := none }

/-- A concrete predictor with 3 rows and lookback 1, on which `train`
succeeds. -/
def predictorBig : Predictor :=
  { cols := ["Close"], raw_df := [[1], [2], [3]], lookback := 1,
    scalerParams := [], targetParams := none, model := none }

/-- A concrete trained black-box model (constant 1/2). -/
def modelHalf : Model :=
  fun _ => 1/2

/-- A concrete predictor carrying a trained model, ready for
`predict_future`. -/
def predictorReady : Predictor :=
  { cols := ["Close"], raw_df := [[1], [2], [3]], lookback := 1,
    scalerParams := [], targetParams := none, model := some modelHalf }

/-- The predictor state that a successful `train fitModelZero predictorBig`
produces. -/
def predictorBigTrained : Predictor :=
  { predictorBig with
    scalerParams := (prepOutOf predictorBig).scalerP
    targetParams := some (prepOutOf predictorBig).targetP
    model := some (fitModelZero (prepOutOf predictorBig).X (prepOutOf predictorBig).y) }

/-- The rollout's seed window: the last `lookback` rows of the scaled
feature matrix (`scaled_data[-self.lookback:]`). -/
def seedOf (s : Predictor) : List (List ℚ) :=
  (scaledMatrix s).drop ((scaledMatrix s).length - s.lookback)

/-! ## Helper lemmas -/

theorem prepare_data_ok (s : Predictor) (h : s.raw_df ≠ []) :
    prepare_data s = .ok (prepOutOf s) := by
  unfold prepare_data
  rw [if_neg (by simpa using h)]
  rfl

theorem scaledMatrix_length (s : Predictor) :
    (scaledMatrix s).length = s.raw_df.length :=
  List.length_map _ _

theorem scaledMatrix_rows_length (s : Predictor) (F : ℕ)
    (hF : ∀ r ∈ s.raw_df, r.length = F) :
    ∀ r ∈ scaledMatrix s, r.length = F := by
  intro r hr
  rcases List.mem_map.mp hr with ⟨r₀, hr₀, rfl⟩
  simpa [transformRow] using hF r₀ hr₀

theorem pyRange_nil (a b : ℕ) (h : b ≤ a) : pyRange a b = [] := by
  unfold pyRange
  rw [Nat.sub_eq_zero_of_le h]
  rfl

/-- Claim C2 (amended): when the feature table has `T ≤ L` rows, `train`
does fail before any model fitting is attempted — the result does not
depend on the fitting procedure — but with a generic Python error
(`IndexError` from `X.shape[1]` on the empty example array when the table
is nonempty; `ValueError` from the scaler fit when it is empty), not with
an `InsufficientDataError`, which the code never defines or raises. -/
theorem train_insufficient_rows_generic_error
    (f : List (List (List ℚ)) → List ℚ → Model) (s : Predictor)
    (hTL : s.raw_df.length ≤ s.lookback) :
    (s.raw_df ≠ [] → train f s = .error .indexError) ∧
    (s.raw_df = [] → train f s = .error .valueError) := by
  constructor
  · intro hne
    unfold train
    rw [prepare_data_ok s hne]
    have hX : (prepOutOf s).X = [] := by
      unfold prepOutOf
      rw [pyRange_nil _ _ (by rw [scaledMatrix_length]; exact hTL)]
      rfl
    show Except.bind _ _ = _
    rw [Except.bind]
    simp only [hX]
    rfl
  · intro hemp
    unfold train prepare_data
    rw [if_pos (by simp [hemp])]
    rfl

/-- Witness for the amended C2 at a concrete predictor (2 rows,
lookback 60). -/
theorem train_insufficient_rows_generic_error_witness :
    predictorSmall.raw_df.length ≤ predictorSmall.lookback ∧
    train fitModelZero predictorSmall = .error .indexError :=
  ⟨by norm_num [predictorSmall],
    (train_insufficient_rows_generic_error fitModelZero predictorSmall
      (by norm_num [predictorSmall])).1 (by simp [predictorSmall])⟩

/-- Counterexample to C2 as stated: on a concrete 2-row table with
lookback 60 (so `T ≤ L`), `train` evaluates to an `IndexError`, which is
not an `InsufficientDataError`. -/
theorem train_small_is_index_error :
    train fitModelZero predictorSmall = .error .indexError ∧
    (Except.error (ε := PyError) (α := Predictor) .indexError ≠
      .error .insufficientDataError) := by
  constructor
  · rfl
  · simp

/-- Claim C3 (amended): on a predictor on which `train` has never
succeeded (the model is still `None`), `predict_future` with at least one
rollout step on a table that passes data preparation fails with an
`AttributeError` (the first `self.model.predict` call on `None`), not with
a `ModelNotTrainedError`, which the code never defines or raises. -/
theorem predict_untrained_attribute_error (s : Predictor) (days : ℕ)
    (hm : s.model = none) (hne : s.raw_df ≠ [])
    (hT : s.lookback ≤ s.raw_df.length) (hc : "Close" ∈ s.cols)
    (hd : 0 < days) :
    predict_future s days = .error .attributeError := by
  obtain ⟨k, rfl⟩ : ∃ k, days = k + 1 := ⟨days - 1, by omega⟩
  unfold predict_future
  rw [prepare_data_ok s hne]
  show Except.bind _ _ = _
  rw [Except.bind]
  have hlen : ¬ (prepOutOf s).scaled.length < s.lookback := by
    show ¬ (scaledMatrix s).length < s.lookback
    rw [scaledMatrix_length]
    omega
  rw [if_neg hlen, if_pos hc, hm]
  rfl

/-- Witness for the amended C3 at a concrete untrained predictor and a
7-step horizon. -/
theorem predict_untrained_attribute_error_witness :
    predictorUntrained.model = none ∧
    predict_future predictorUntrained 7 = .error .attributeError :=
  ⟨rfl,
    predict_untrained_attribute_error predictorUntrained 7 rfl (by simp [predictorUntrained])
      (by norm_num [predictorUntrained]) (by simp [predictorUntrained]) (by norm_num)⟩

/-- Counterexample to C3 as stated: on a concrete never-trained predictor,
`predict_future(days=30)` evaluates to an `AttributeError`, which is not a
`ModelNotTrainedError`. -/
theorem predict_untrained_is_attribute_error :
    predict_future predictorUntrained 30 = .error .attributeError ∧
    (Except.error (ε := PyError) (α := List ℚ) .attributeError ≠
      .error .modelNotTrainedError) := by
  constructor
  · rfl
  · simp

theorem except_bind_ok {ε α β : Type} (a : α) (k : α → Except ε β) :
    (Except.ok (ε := ε) a >>= k) = k a :=
  rfl

theorem train_ok_of_nonempty (f : List (List (List ℚ)) → List ℚ → Model)
    (s : Predictor) (hne : s.raw_df ≠ []) (hX : (prepOutOf s).X ≠ []) :
    train f s = .ok { s with scalerParams := (prepOutOf s).scalerP,
                             targetParams := some (prepOutOf s).targetP,
                             model := some (f (prepOutOf s).X (prepOutOf s).y) } := by
  unfold train
  rw [prepare_data_ok s hne, except_bind_ok]
  rcases hXeq : (prepOutOf s).X with _ | ⟨w, X'⟩
  · exact absurd hXeq hX
  · rfl

/-- Claim C4: after a successful `train`, the raw feature table is
unchanged, and the scaler parameters that `predict_future`'s own
`prepare_data` call refits (the ones the rollout then uses to transform
and inverse-transform) coincide exactly with the parameters recorded by
`train` — no rollout step uses differently-fit scalers. -/
theorem rollout_uses_training_scalers
    (f : List (List (List ℚ)) → List ℚ → Model) (s s₁ : Predictor)
    (ht : train f s = .ok s₁) :
    s₁.raw_df = s.raw_df ∧
    ∀ p : PrepOut, prepare_data s₁ = .ok p →
      p.scalerP = s₁.scalerParams ∧ some p.targetP = s₁.targetParams := by
  by_cases hne : s.raw_df = []
  · exfalso
    have herr : train f s = .error .valueError := by
      unfold train prepare_data
      rw [if_pos (by simp [hne])]
      rfl
    rw [herr] at ht
    exact Except.noConfusion ht
  · by_cases hX : (prepOutOf s).X = []
    · exfalso
      have herr : train f s = .error .indexError := by
        unfold train
        rw [prepare_data_ok s hne, except_bind_ok, hX]
        rfl
      rw [herr] at ht
      exact Except.noConfusion ht
    · rw [train_ok_of_nonempty f s hne hX, Except.ok.injEq] at ht
      subst ht
      refine ⟨rfl, ?_⟩
      intro p hp
      rw [prepare_data_ok
            { s with scalerParams := (prepOutOf s).scalerP,
                     targetParams := some (prepOutOf s).targetP,
                     model := some (f (prepOutOf s).X (prepOutOf s).y) } hne,
          Except.ok.injEq] at hp
      subst hp
      exact ⟨rfl, rfl⟩

/-- Witness for C4: a concrete successful training run (3 rows,
lookback 1) whose recorded scaler parameters match the refit ones. -/
theorem rollout_uses_training_scalers_witness :
    train fitModelZero predictorBig = .ok predictorBigTrained ∧
    predictorBigTrained.raw_df = predictorBig.raw_df ∧
    (prepOutOf predictorBigTrained).scalerP = predictorBigTrained.scalerParams ∧
    some (prepOutOf predictorBigTrained).targetP = predictorBigTrained.targetParams := by
  have h := rollout_uses_training_scalers fitModelZero predictorBig predictorBigTrained rfl
  have h2 := h.2 (prepOutOf predictorBigTrained)
    (prepare_data_ok predictorBigTrained (by simp [predictorBigTrained, predictorBig]))
  exact ⟨rfl, h.1, h2.1, h2.2⟩

theorem pyRange_length (a b : ℕ) : (pyRange a b).length = b - a :=
  List.length_range' _ _ _

theorem pyRange_getD (a b k : ℕ) (hk : k < b - a) :
    (pyRange a b).getD k 0 = a + k := by
  unfold pyRange
  rw [List.getD_eq_getElem _ _ (by rw [List.length_range']; exact hk),
      List.getElem_range']
  omega

theorem map_getD_of_lt {α β : Type} (f : α → β) (l : List α) (k : ℕ)
    (d : β) (d' : α) (hk : k < l.length) :
    (l.map f).getD k d = f (l.getD k d') := by
  rw [List.getD_eq_getElem _ _ (by rw [List.length_map]; exact hk),
      List.getElem_map, List.getD_eq_getElem _ _ hk]

/-- Claim C5: on a rectangular T×F table with T > L, `prepare_data` emits
exactly T−L (window, label) pairs; for every i in [L, T) the pair at
position i−L has window exactly the scaled rows [i−L, i) — an L×F block —
and label the scaled target-column entry of row i. -/
theorem prepare_data_windowing (s : Predictor) (F : ℕ) (p : PrepOut)
    (hF : ∀ r ∈ s.raw_df, r.length = F)
    (hT : s.lookback < s.raw_df.length)
    (hp : prepare_data s = .ok p) :
    p.X.length = s.raw_df.length - s.lookback ∧
    p.y.length = s.raw_df.length - s.lookback ∧
    ∀ i, s.lookback ≤ i → i < s.raw_df.length →
      p.X.getD (i - s.lookback) [] =
        (p.scaled.drop (i - s.lookback)).take s.lookback ∧
      (p.X.getD (i - s.lookback) []).length = s.lookback ∧
      (∀ r ∈ p.X.getD (i - s.lookback) [], r.length = F) ∧
      p.y.getD (i - s.lookback) 0 = (p.scaled.getD i []).getD p.closeIdx 0 := by
  have hne : s.raw_df ≠ [] := by
    intro h
    rw [h] at hT
    simp at hT
  rw [prepare_data_ok s hne, Except.ok.injEq] at hp
  subst hp
  have hlen : (scaledMatrix s).length = s.raw_df.length := scaledMatrix_length s
  refine ⟨?_, ?_, ?_⟩
  · show ((pyRange s.lookback (scaledMatrix s).length).map _).length = _
    rw [List.length_map, pyRange_length, hlen]
  · show ((pyRange s.lookback (scaledMatrix s).length).map _).length = _
    rw [List.length_map, pyRange_length, hlen]
  · intro i hLi hiT
    have hk : i - s.lookback < (scaledMatrix s).length - s.lookback := by
      rw [hlen]; omega
    have hk' : i - s.lookback < (pyRange s.lookback (scaledMatrix s).length).length := by
      rw [pyRange_length]; exact hk
    have hXel : (prepOutOf s).X.getD (i - s.lookback) [] =
        ((scaledMatrix s).drop (i - s.lookback)).take s.lookback := by
      show ((pyRange s.lookback (scaledMatrix s).length).map _).getD (i - s.lookback) [] = _
      rw [map_getD_of_lt _ _ _ _ 0 hk', pyRange_getD _ _ _ hk]
      have : s.lookback + (i - s.lookback) - s.lookback = i - s.lookback := by omega
      rw [this]
    refine ⟨hXel, ?_, ?_, ?_⟩
    · rw [hXel, List.length_take, List.length_drop, hlen]
      omega
    · intro r hr
      rw [hXel] at hr
      exact scaledMatrix_rows_length s F hF r
        (List.mem_of_mem_drop (List.mem_of_mem_take hr))
    · show ((pyRange s.lookback (scaledMatrix s).length).map _).getD (i - s.lookback) 0 = _
      rw [map_getD_of_lt _ _ _ _ 0 hk', pyRange_getD _ _ _ hk]
      have : s.lookback + (i - s.lookback) = i := by omega
      rw [this]
      rfl

/-- Witness for C5 at a concrete 3-row, 1-column table with lookback 1,
instantiated at row index i = 2. -/
theorem prepare_data_windowing_witness :
    prepare_data predictorBig = .ok (prepOutOf predictorBig) ∧
    (prepOutOf predictorBig).X.length =
      predictorBig.raw_df.length - predictorBig.lookback ∧
    (prepOutOf predictorBig).X.getD (2 - predictorBig.lookback) [] =
      ((prepOutOf predictorBig).scaled.drop (2 - predictorBig.lookback)).take
        predictorBig.lookback ∧
    (prepOutOf predictorBig).y.getD (2 - predictorBig.lookback) 0 =
      ((prepOutOf predictorBig).scaled.getD 2 []).getD
        (prepOutOf predictorBig).closeIdx 0 := by
  have h := prepare_data_windowing predictorBig 1 (prepOutOf predictorBig)
    (by
      intro r hr
      simp only [predictorBig, List.mem_cons, List.not_mem_nil, or_false] at hr
      rcases hr with rfl | rfl | rfl <;> rfl)
    (by norm_num [predictorBig]) rfl
  have h2 := h.2.2 2 (by norm_num [predictorBig]) (by norm_num [predictorBig])
  exact ⟨rfl, h.1, h2.1, h2.2.2.2⟩

/-! ## Claims about news trust and sentiment aggregation -/

/-- Claim C8: a processed article is untrusted iff its authenticity label is
"FAKE" and the confidence is strictly greater than 0.60; at confidence
exactly 0.60 a "FAKE" article is trusted. -/
theorem trust_rule_strict_threshold :
    (∀ v : String, ∀ c : ℚ, isTrustedOf v c = false ↔ v = "FAKE" ∧ c > 3/5) ∧
    isTrustedOf "FAKE" (3/5) = true := by
  constructor
  · intro v c
    unfold isTrustedOf
    by_cases h : v = "FAKE" ∧ c > 3/5
    · simp [h]
    · simp [h]
  · norm_num [isTrustedOf]

/-- Witness for C8 at concrete inputs: a "FAKE" article with confidence 0.61
is untrusted, by the main theorem's characterisation. -/
theorem trust_rule_strict_threshold_witness :
    isTrustedOf "FAKE" (61/100) = false :=
  (trust_rule_strict_threshold.1 "FAKE" (61/100)).mpr ⟨rfl, by norm_num⟩

/-- Claim C10: given two class probabilities that are nonnegative and sum
to 1 (a softmax output), `detect_fake_news` returns label "REAL" or "FAKE"
and a confidence that is at least 1/2, the larger of the two
probabilities; hence a FAKE verdict with confidence below 0.5 is
impossible. -/
theorem detect_fake_news_confidence (fp rp : ℚ)
    (h0f : 0 ≤ fp) (h0r : 0 ≤ rp) (hsum : fp + rp = 1) :
    ((detect_fake_news fp rp).1 = "REAL" ∨ (detect_fake_news fp rp).1 = "FAKE") ∧
    1/2 ≤ (detect_fake_news fp rp).2 := by
  unfold detect_fake_news
  by_cases h : rp > fp
  · rw [if_pos h]
    refine ⟨Or.inl rfl, ?_⟩
    show (1:ℚ)/2 ≤ rp
    linarith
  · rw [if_neg h]
    push_neg at h
    refine ⟨Or.inr rfl, ?_⟩
    show (1:ℚ)/2 ≤ fp
    linarith

/-- Witness for C10 at the concrete softmax output (0.7, 0.3). -/
theorem detect_fake_news_confidence_witness :
    (0:ℚ) ≤ 7/10 ∧ (0:ℚ) ≤ 3/10 ∧ (7:ℚ)/10 + 3/10 = 1 ∧
    (((detect_fake_news (7/10) (3/10)).1 = "REAL" ∨
      (detect_fake_news (7/10) (3/10)).1 = "FAKE") ∧
     1/2 ≤ (detect_fake_news (7/10) (3/10)).2) :=
  ⟨by norm_num, by norm_num, by norm_num,
    detect_fake_news_confidence (7/10) (3/10) (by norm_num) (by norm_num) (by norm_num)⟩

/-- Claim C1 (code bug witness): one article classified ("FAKE", 0.95) with
FinBERT probabilities pPos = 0.75, pNeg = 0.25 is flagged untrusted, yet the
value `main.py` writes into the Feature Frame's `Sentiment` column is the
mean over ALL processed articles, 0.5, while the specification's
trusted-only aggregate is 0.0: the untrusted article does contribute. -/
theorem sentiment_aggregate_includes_untrusted :
    (detect_fake_news (95/100) (5/100) = ("FAKE", 95/100)) ∧
    (processArticle "FAKE" (95/100) (75/100) (25/100)).is_trusted = false ∧
    featureSentiment [processArticle "FAKE" (95/100) (75/100) (25/100)] = 1/2 ∧
    featureSentimentSpec [processArticle "FAKE" (95/100) (75/100) (25/100)] = 0 := by
  refine ⟨?_, ?_, ?_, ?_⟩
  · norm_num [detect_fake_news]
  · norm_num [processArticle, isTrustedOf]
  · norm_num [featureSentiment, processArticle]
  · norm_num [featureSentimentSpec, processArticle, isTrustedOf, List.filter]

/-! ## Claims about the rollout -/

/-- Claim C6: each rollout step replaces the window by the window with its
oldest row removed and one synthetic row appended; the retained rows are
byte-for-byte the old rows shifted by one, and the synthetic row is the
previous last row with only the target column overwritten by the new
scaled prediction. -/
theorem rollout_window_update (cIdx : ℕ) (pred : ℚ) (b : List (List ℚ))
    (hb : b ≠ []) :
    (nextBatch cIdx pred b).length = b.length ∧
    (∀ k, k < b.length - 1 →
      (nextBatch cIdx pred b).getD k [] = b.getD (k + 1) []) ∧
    (nextBatch cIdx pred b).getD (b.length - 1) [] =
      (b.getLast hb).set cIdx pred ∧
    (cIdx < (b.getLast hb).length →
      ((b.getLast hb).set cIdx pred).getD cIdx 0 = pred) ∧
    (∀ j, j ≠ cIdx →
      ((b.getLast hb).set cIdx pred).getD j 0 = (b.getLast hb).getD j 0) := by
  have hpos : 0 < b.length := List.length_pos.mpr hb
  have hlast : b.getLast?.getD [] = b.getLast hb := by
    rw [List.getLast?_eq_getLast b hb]
    rfl
  have hdlen : (b.drop 1).length = b.length - 1 := List.length_drop 1 b
  refine ⟨?_, ?_, ?_, ?_, ?_⟩
  · unfold nextBatch
    rw [List.length_append, hdlen]
    simp only [List.length_cons, List.length_nil]
    omega
  · intro k hk
    unfold nextBatch
    rw [List.getD_append _ _ _ _ (by omega : k < (b.drop 1).length),
        List.getD_eq_getElem _ _ (by omega : k < (b.drop 1).length),
        List.getElem_drop,
        List.getD_eq_getElem _ _ (by omega : k + 1 < b.length)]
    congr 1
    omega
  · unfold nextBatch
    rw [List.getD_append_right _ _ _ _ (by omega : (b.drop 1).length ≤ b.length - 1),
        hdlen, Nat.sub_self, hlast]
    rfl
  · intro hc
    rw [List.getD_eq_getElem _ _ (by rw [List.length_set]; exact hc),
        List.getElem_set, if_pos rfl]
  · intro j hj
    by_cases hjl : j < (b.getLast hb).length
    · rw [List.getD_eq_getElem _ _ (by rw [List.length_set]; exact hjl),
          List.getElem_set, if_neg (fun h => hj h.symm),
          List.getD_eq_getElem _ _ hjl]
    · rw [List.getD_eq_default _ _ (by rw [List.length_set]; omega),
          List.getD_eq_default _ _ (by omega)]

/-- Witness for C6 at the concrete window [[1,2],[3,4]] with target
column 0 and scaled prediction 5. -/
theorem rollout_window_update_witness :
    (nextBatch 0 5 [[(1:ℚ), 2], [3, 4]]).length = [[(1:ℚ), 2], [3, 4]].length ∧
    (nextBatch 0 5 [[(1:ℚ), 2], [3, 4]]).getD 0 [] = [[(1:ℚ), 2], [3, 4]].getD 1 [] :=
  ⟨(rollout_window_update 0 5 [[(1:ℚ), 2], [3, 4]] (by simp)).1,
   (rollout_window_update 0 5 [[(1:ℚ), 2], [3, 4]] (by simp)).2.1 0 (by simp)⟩

theorem rollout_some_ok (m : Model) (tp : ScalerParams) (cIdx : ℕ)
    (b : List (List ℚ)) (n : ℕ) :
    rollout (some m) tp cIdx b n =
      .ok ((rolloutScaled m cIdx b n).map (invScaleVal tp)) := by
  induction n generalizing b with
  | zero => rfl
  | succ k ih => simp only [rollout, rolloutScaled, ih, List.map_cons]

theorem rolloutScaled_length (m : Model) (cIdx : ℕ) (b : List (List ℚ)) (n : ℕ) :
    (rolloutScaled m cIdx b n).length = n := by
  induction n generalizing b with
  | zero => rfl
  | succ k ih => simp only [rolloutScaled, List.length_cons, ih]

theorem rolloutScaled_getD (m : Model) (cIdx : ℕ) (b : List (List ℚ))
    (n k : ℕ) (hk : k < n) :
    (rolloutScaled m cIdx b n).getD k 0 = m (batchAt m cIdx b k) := by
  induction n generalizing b k with
  | zero => omega
  | succ n ih =>
    cases k with
    | zero => rfl
    | succ k =>
      show (rolloutScaled m cIdx (stepBatch m cIdx b) n).getD k 0 = _
      rw [ih _ _ (by omega)]
      rfl

/-- Claim C7: on a trained predictor whose table passes preparation, for
every horizon N in [7, 90] `predict_future` returns exactly N values, in
chronological (step) order — the value at index k is the target-only
scaler's inverse transform of the model's scaled output at rollout
step k, step 0 using the seed window of the last L scaled rows. -/
theorem predict_future_length_order (s : Predictor) (m : Model) (days : ℕ)
    (hm : s.model = some m) (hne : s.raw_df ≠ [])
    (hT : s.lookback ≤ s.raw_df.length) (hc : "Close" ∈ s.cols)
    (h7 : 7 ≤ days) (h90 : days ≤ 90) :
    predict_future s days =
      .ok ((rolloutScaled m (s.cols.indexOf "Close") (seedOf s) days).map
            (invScaleVal (prepOutOf s).targetP)) ∧
    ((rolloutScaled m (s.cols.indexOf "Close") (seedOf s) days).map
        (invScaleVal (prepOutOf s).targetP)).length = days ∧
    ∀ k, k < days →
      ((rolloutScaled m (s.cols.indexOf "Close") (seedOf s) days).map
          (invScaleVal (prepOutOf s).targetP)).getD k 0 =
        invScaleVal (prepOutOf s).targetP
          (m (batchAt m (s.cols.indexOf "Close") (seedOf s) k)) := by
  unfold predict_future
  rw [prepare_data_ok s hne, except_bind_ok]
  have hlen : ¬ (prepOutOf s).scaled.length < s.lookback := by
    show ¬ (scaledMatrix s).length < s.lookback
    rw [scaledMatrix_length]
    omega
  rw [if_neg hlen, if_pos hc, hm, rollout_some_ok]
  refine ⟨rfl, ?_, ?_⟩
  · rw [List.length_map, rolloutScaled_length]
  · intro k hk
    rw [map_getD_of_lt _ _ _ _ 0 (by rw [rolloutScaled_length]; exact hk),
        rolloutScaled_getD _ _ _ _ _ hk]

/-- Witness for C7: a concrete trained predictor (3 rows, lookback 1,
constant model) with a 7-day horizon. -/
theorem predict_future_length_order_witness :
    predict_future predictorReady 7 =
      .ok ((rolloutScaled modelHalf (predictorReady.cols.indexOf "Close")
              (seedOf predictorReady) 7).map
            (invScaleVal (prepOutOf predictorReady).targetP)) ∧
    ((rolloutScaled modelHalf (predictorReady.cols.indexOf "Close")
        (seedOf predictorReady) 7).map
      (invScaleVal (prepOutOf predictorReady).targetP)).length = 7 := by
  have h := predict_future_length_order predictorReady modelHalf 7 rfl
    (by simp [predictorReady]) (by norm_num [predictorReady])
    (by simp [predictorReady]) (by norm_num) (by norm_num)
  exact ⟨h.1, h.2.1⟩
